import Mathlib

/-!
Verification development for the mcp-poc tool server (sokardys/mcp-poc).

The repository exposes three schema-validated operations (saludo, calcular,
fecha_actual) behind per-tool resolvers and a dispatching ToolResolver.
This file gives a shallow embedding of the data model and the operations:

* `JValue` models the loosely typed JSON-ish argument bags the transport
  delivers; `JSNum` models JavaScript numbers as exact rationals plus the
  three non-finite values (Infinity, -Infinity, NaN).
* `calcParse`, `greetingParse`, `dtParse` embed the three Zod input schemas
  (`CalculatorInputSchema`, `GreetingInputSchema`, `DateTimeInputSchema`)
  issue by issue, including custom error-map messages, the string-to-boolean
  preprocess coercion, defaults, and the divide-by-zero `.refine` rule.
* `calcExecute`, `greetingExecute`, `dtExecute` embed the three use cases.
  Wall-clock and timezone-database reads are passed in explicitly (the hour
  as a natural number, the date formatting environment as `DateEnv`).
* `resolveAndExecuteWith` embeds the (three identical) resolver
  `resolveAndExecute` bodies, parameterised by tool name, schema and use
  case; `toolResolveWith` embeds `ToolResolver.resolveAndExecute`.
-/

/-- A JavaScript number: an exact rational for the finite doubles, plus the
three non-finite values. Finite double arithmetic is idealised as exact
rational arithmetic. -/
inductive JSNum where
  | fin (q : ℚ)
  | inf
  | negInf
  | nan
deriving DecidableEq

/-- A JSON-like value as received from the MCP transport. -/
inductive JValue where
  | str (s : String)
  | num (n : JSNum)
  | bool (b : Bool)
  | null
  | obj (fields : List (String × JValue))

/-- Zod typeName of a value, as used in default invalid-type messages. -/
def jsTypeName : JValue → String
  | .str _ => "string"
  | .num .nan => "nan"
  | .num _ => "number"
  | .bool _ => "boolean"
  | .null => "null"
  | .obj _ => "object"

/-- First-match key lookup in an argument object (JS property access). -/
def jlookup (k : String) : List (String × JValue) → Option JValue
  | [] => none
  | (k', v) :: rest => if k' = k then some v else jlookup k rest

/-- One Zod issue, reduced to the pair the resolvers use:
(joined field path, message). -/
abbrev ZodIssue := String × String

/-- The error list contributed by one field parse. -/
def errList {α : Type} : Except ZodIssue α → List ZodIssue
  | .ok _ => []
  | .error i => [i]

/-- One content item of an MCP tool result; `ctype` is always "text". -/
structure ContentItem where
  ctype : String
  text : String
deriving DecidableEq

def textContent (s : String) : ContentItem := ⟨"text", s⟩

/-- The success envelope a use case returns. -/
structure ToolResult where
  content : List ContentItem
deriving DecidableEq

/-- MCP error codes used by the repository. -/
inductive ErrorCode where
  | MethodNotFound
  | InvalidParams
  | InternalError
deriving DecidableEq

/-- The typed failure (`McpError`) of the MCP SDK. -/
structure McpError where
  code : ErrorCode
  message : String
deriving DecidableEq

/-- An error escaping a use case: either an already-typed `McpError` or a
plain JavaScript `Error` carrying only a message. -/
inductive JsError where
  | mcp (e : McpError)
  | plain (msg : String)
deriving DecidableEq

deriving instance DecidableEq for Except

/-! ### Calculator schema (CalculatorInputSchema, calculator.resolver.ts) -/

inductive Operacion where
  | suma
  | resta
  | multiplicacion
  | division
deriving DecidableEq

structure CalculatorInput where
  operacion : Operacion
  a : ℚ
  b : ℚ
deriving DecidableEq

def opEnumMsg : String :=
  "La operación debe ser una de: suma, resta, multiplicacion, division"

def finiteMsgA : String := "El primer número debe ser un número válido"

def finiteMsgB : String := "El segundo número debe ser un número válido"

def divZeroMsg : String := "No se puede dividir por cero"

/-- z.enum([suma, resta, multiplicacion, division]) with a custom errorMap:
every failure of this field (missing, wrong type, not a member) carries the
same custom message. -/
def parseOperacion (ov : Option JValue) : Except ZodIssue Operacion :=
  match ov with
  | some (.str s) =>
    if s = "suma" then .ok .suma
    else if s = "resta" then .ok .resta
    else if s = "multiplicacion" then .ok .multiplicacion
    else if s = "division" then .ok .division
    else .error ("operacion", opEnumMsg)
  | _ => .error ("operacion", opEnumMsg)

/-- z.number().finite(msg): missing is Required, NaN is an invalid type
(Zod types NaN apart from number), Infinity fails the finiteness check with
the custom message, other types fail with the default typed message. -/
def parseFiniteNum (field msg : String) (ov : Option JValue) : Except ZodIssue ℚ :=
  match ov with
  | none => .error (field, "Required")
  | some (.num (.fin q)) => .ok q
  | some (.num .nan) => .error (field, "Expected number, received nan")
  | some (.num .inf) => .error (field, msg)
  | some (.num .negInf) => .error (field, msg)
  | some v => .error (field, "Expected number, received " ++ jsTypeName v)

/-- CalculatorInputSchema.parse: the object schema collects the issues of
all three fields (fail-slow); the `.refine` cross-field rule
(operacion = division and b = 0) runs only if the base object parsed, and
contributes one issue at path b with the custom message. -/
def calcParse (v : JValue) : Except (List ZodIssue) CalculatorInput :=
  match v with
  | .obj fs =>
    match parseOperacion (jlookup "operacion" fs),
          parseFiniteNum "a" finiteMsgA (jlookup "a" fs),
          parseFiniteNum "b" finiteMsgB (jlookup "b" fs) with
    | .ok o, .ok a, .ok b =>
      if o = Operacion.division ∧ b = 0 then .error [("b", divZeroMsg)]
      else .ok ⟨o, a, b⟩
    | ro, ra, rb => .error (errList ro ++ errList ra ++ errList rb)
  | v => .error [("", "Expected object, received " ++ jsTypeName v)]

/-- The issue list of a calculator parse (empty on success). -/
def calcIssues (v : JValue) : List ZodIssue :=
  match calcParse v with
  | .error l => l
  | .ok _ => []

/-! ### Greeting schema (GreetingInputSchema, greeting.resolver.ts) -/

structure GreetingInput where
  nombre : String
  formal : Bool
deriving DecidableEq

/-- z.string().min(1, ...).max(100, ...). -/
def parseNombre (ov : Option JValue) : Except ZodIssue String :=
  match ov with
  | none => .error ("nombre", "Required")
  | some (.str s) =>
    if s.length < 1 then .error ("nombre", "El nombre no puede estar vacío")
    else if s.length > 100 then .error ("nombre", "El nombre es demasiado largo")
    else .ok s
  | some v => .error ("nombre", "Expected string, received " ++ jsTypeName v)

/-- String.prototype.toLowerCase, modelled characterwise (the names this
code lowercases are compared against the ASCII literal "true"). -/
def strToLower (s : String) : String := String.mk (s.data.map Char.toLower)

/-- The z.preprocess step on formal: a string is coerced by lowercasing and
comparing with the literal "true"; anything else passes through. -/
def coerceFormal : Option JValue → Option JValue
  | some (.str s) => some (.bool (strToLower s == "true"))
  | v => v

/-- z.preprocess(..., z.boolean().optional().default(false)). -/
def parseFormal (ov : Option JValue) : Except ZodIssue Bool :=
  match coerceFormal ov with
  | none => .ok false
  | some (.bool b) => .ok b
  | some v => .error ("formal", "Expected boolean, received " ++ jsTypeName v)

/-- GreetingInputSchema.parse. -/
def greetingParse (v : JValue) : Except (List ZodIssue) GreetingInput :=
  match v with
  | .obj fs =>
    match parseNombre (jlookup "nombre" fs), parseFormal (jlookup "formal" fs) with
    | .ok n, .ok f => .ok ⟨n, f⟩
    | rn, rf => .error (errList rn ++ errList rf)
  | v => .error [("", "Expected object, received " ++ jsTypeName v)]

/-! ### Datetime schema (DateTimeInputSchema, datetime.resolver.ts) -/

inductive Formato where
  | corto
  | largo
  | hora
  | completo
  | iso
deriving DecidableEq

structure DateTimeInput where
  formato : Formato
  zona_horaria : String
deriving DecidableEq

def fmtEnumMsg : String :=
  "El formato debe ser uno de: corto, largo, hora, completo, iso"

/-- z.enum([corto, largo, hora, completo, iso]).optional().default("largo")
with a custom errorMap. -/
def parseFormato (ov : Option JValue) : Except ZodIssue Formato :=
  match ov with
  | none => .ok .largo
  | some (.str s) =>
    if s = "corto" then .ok .corto
    else if s = "largo" then .ok .largo
    else if s = "hora" then .ok .hora
    else if s = "completo" then .ok .completo
    else if s = "iso" then .ok .iso
    else .error ("formato", fmtEnumMsg)
  | some _ => .error ("formato", fmtEnumMsg)

/-- z.string().optional().default("Europe/Madrid"). -/
def parseZona (ov : Option JValue) : Except ZodIssue String :=
  match ov with
  | none => .ok "Europe/Madrid"
  | some (.str s) => .ok s
  | some v => .error ("zona_horaria", "Expected string, received " ++ jsTypeName v)

/-- DateTimeInputSchema.parse. -/
def dtParse (v : JValue) : Except (List ZodIssue) DateTimeInput :=
  match v with
  | .obj fs =>
    match parseFormato (jlookup "formato" fs), parseZona (jlookup "zona_horaria" fs) with
    | .ok f, .ok z => .ok ⟨f, z⟩
    | rf, rz => .error (errList rf ++ errList rz)
  | v => .error [("", "Expected object, received " ++ jsTypeName v)]

/-! ### Calculator use case (calculator.usecase.ts)

The rational operations below are stated through the normalising smart
constructors `mkRat`/`Rat.divInt` rather than through ℚ's field operations,
because the latter are deliberately `@[irreducible]` in the library and
would block evaluation of the model on concrete inputs. The `q..._eq`
bridge lemmas prove each wrapper equal to the corresponding field
operation, so the wrappers are the field operations of the source. -/

def qAdd (a b : ℚ) : ℚ := mkRat (a.num * b.den + b.num * a.den) (a.den * b.den)

def qSub (a b : ℚ) : ℚ := mkRat (a.num * b.den - b.num * a.den) (a.den * b.den)

def qMul (a b : ℚ) : ℚ := mkRat (a.num * b.num) (a.den * b.den)

def qDiv (a b : ℚ) : ℚ := Rat.divInt (a.num * b.den) (a.den * b.num)

/-- JavaScript division, including the division-by-zero semantics of IEEE
doubles (positive/0 is Infinity, negative/0 is -Infinity, 0/0 is NaN). -/
def jsDiv (a b : ℚ) : JSNum :=
  if b = 0 then
    if 0 < a then .inf else if a < 0 then .negInf else .nan
  else .fin (qDiv a b)

/-- The `resultado` variable of the switch in CalculatorUseCase.execute. -/
def opValue : Operacion → ℚ → ℚ → JSNum
  | .suma, a, b => .fin (qAdd a b)
  | .resta, a, b => .fin (qSub a b)
  | .multiplicacion, a, b => .fin (qMul a b)
  | .division, a, b => jsDiv a b

/-- The `simbolo` variable of the switch in CalculatorUseCase.execute. -/
def opSimbolo : Operacion → String
  | .suma => "+"
  | .resta => "-"
  | .multiplicacion => "×"
  | .division => "÷"

/-- The `descripcion` variable of the switch in CalculatorUseCase.execute. -/
def opDescripcion : Operacion → String
  | .suma => "Suma"
  | .resta => "Resta"
  | .multiplicacion => "Multiplicación"
  | .division => "División"

/-- Number.isInteger. -/
def isIntegerJS : JSNum → Bool
  | .fin q => q.den == 1
  | _ => false

/-- Floor of a rational (denominators are positive, so Euclidean division
of the numerator by the denominator is the floor). -/
def ratFloor (q : ℚ) : ℤ := Int.ediv q.num (q.den : ℤ)

def padLeftZeros (k : ℕ) (s : String) : String :=
  String.mk (List.replicate (k - s.length) '0') ++ s

/-- Fixed-point rendering of a nonnegative scaled integer m = n·10^k. -/
def natFixedString (k : ℕ) (m : ℕ) : String :=
  toString (m / 10 ^ k) ++ "." ++ padLeftZeros k (toString (m % 10 ^ k))

/-- The scaled and half-shifted value q·10^k + 1/2, built directly as one
fraction (see `qHalfUp_eq`) so the model evaluates. -/
def qHalfUp (k : ℕ) (q : ℚ) : ℚ :=
  mkRat (2 * q.num * ((10 ^ k : ℕ) : ℤ) + (q.den : ℤ)) (2 * q.den)

/-- Number.prototype.toFixed(k) on a finite double, idealised over ℚ:
round half up at the k-th decimal (the ECMAScript rule picks the larger
candidate on ties, which floor(x·10^k + 1/2) implements). -/
def ratToFixed (k : ℕ) (q : ℚ) : String :=
  let n : ℤ := ratFloor (qHalfUp k q)
  if n < 0 then "-" ++ natFixedString k n.natAbs else natFixedString k n.toNat

/-- toFixed on a JavaScript number (the non-finite values render as their
names, exactly as in JS). -/
def jsToFixed (k : ℕ) : JSNum → String
  | .fin q => ratToFixed k q
  | .inf => "Infinity"
  | .negInf => "-Infinity"
  | .nan => "NaN"

/-- The regex replace `.replace(/\.?0+$/, "")` on the strings this code
applies it to: drop the trailing zeros and, if that exposes a trailing
decimal point, drop it too (the regex consumes the dot only together with
at least one zero). -/
def stripTrailing (s : String) : String :=
  let rcs := s.data.reverse
  let rcs' := rcs.dropWhile (· == '0')
  if rcs'.length < rcs.length then
    match rcs' with
    | '.' :: rest => String.mk rest.reverse
    | _ => String.mk rcs'.reverse
  else s

/-- JavaScript number-to-string as interpolated into the result template.
Integers render as plain integers. For non-integral values JS prints the
shortest round-tripping decimal, which has no exact counterpart on ℚ; the
model prints the value to 17 places and strips trailing zeros, which agrees
with JS on every terminating decimal of at most 17 places (the only
non-integral values the claims evaluate). -/
def jsNumToString : JSNum → String
  | .fin q => if q.den == 1 then toString q.num else stripTrailing (ratToFixed 17 q)
  | .inf => "Infinity"
  | .negInf => "-Infinity"
  | .nan => "NaN"

/-- The `resultadoFormateado` expression of CalculatorUseCase.execute:
integral results print via toString, others via toFixed(6) with trailing
zeros stripped. -/
def formatResultado (r : JSNum) : String :=
  if isIntegerJS r then jsNumToString r
  else stripTrailing (jsToFixed 6 r)

/-- CalculatorUseCase.execute. The switch has a default branch that throws
"Operación no válida", but the validated input type makes it unreachable;
the Except codomain keeps the possibility of a thrown error observable. -/
def calcExecute (inp : CalculatorInput) : Except String ToolResult :=
  let r := opValue inp.operacion inp.a inp.b
  .ok ⟨[textContent (opDescripcion inp.operacion ++ ": " ++ jsNumToString (.fin inp.a)
    ++ " " ++ opSimbolo inp.operacion ++ " " ++ jsNumToString (.fin inp.b)
    ++ " = " ++ formatResultado r)]⟩

/-! ### Greeting use case (greeting.usecase.ts) -/

/-- GreetingUseCase.execute, with the wall-clock hour (new Date().getHours(),
a value in 0..23) passed explicitly. -/
def greetingExecute (hour : ℕ) (inp : GreetingInput) : ToolResult :=
  let saludoTiempo :=
    if hour < 12 then (if inp.formal then "Buenos días" else "¡Buenos días")
    else if hour < 18 then (if inp.formal then "Buenas tardes" else "¡Buenas tardes")
    else (if inp.formal then "Buenas noches" else "¡Buenas noches")
  let saludo :=
    if inp.formal then
      saludoTiempo ++ ", " ++ inp.nombre ++ ". Es un placer saludarle. Espero que tenga un excelente día."
    else
      saludoTiempo ++ " " ++ inp.nombre ++ "! ¿Cómo estás? ¡Espero que tengas un día genial!"
  ⟨[textContent saludo]⟩

/-! ### Datetime use case (datetime.usecase.ts) -/

/-- The impure reads of DateTimeUseCase.execute, passed explicitly: the
current instant rendered by each locale formatter, whether the timezone
database accepts an identifier, and the RangeError message the runtime
raises for a rejected one. A locale call with an invalid timeZone throws;
toISOString never consults the timezone. -/
structure DateEnv where
  isoString : String
  validTZ : String → Bool
  localeDateShort : String → String
  localeTime : String → String
  localeFull : String → String
  localeLongDate : String → String
  tzErrMsg : String → String

/-- The zonaInfo suffix appended to every datetime result. -/
def zonaInfo (tz : String) : String :=
  if tz = "Europe/Madrid" then "" else " (Zona horaria: " ++ tz ++ ")"

/-- The `fechaFormateada` switch of DateTimeUseCase.execute: every branch
except iso formats through the locale API with the requested timeZone and
therefore throws on an invalid identifier; iso uses toISOString. -/
def dtFormat (env : DateEnv) (f : Formato) (tz : String) : Except String String :=
  match f with
  | .corto => if env.validTZ tz then .ok (env.localeDateShort tz) else .error (env.tzErrMsg tz)
  | .hora => if env.validTZ tz then .ok (env.localeTime tz) else .error (env.tzErrMsg tz)
  | .completo => if env.validTZ tz then .ok (env.localeFull tz) else .error (env.tzErrMsg tz)
  | .iso => .ok env.isoString
  | .largo => if env.validTZ tz then .ok (env.localeLongDate tz) else .error (env.tzErrMsg tz)

/-- DateTimeUseCase.execute: the try/catch wraps any formatting error into
a plain Error prefixed with "Error al formatear la fecha: ". -/
def dtExecute (env : DateEnv) (inp : DateTimeInput) : Except String ToolResult :=
  match dtFormat env inp.formato inp.zona_horaria with
  | .ok s => .ok ⟨[textContent ("La fecha actual es: " ++ s ++ zonaInfo inp.zona_horaria)]⟩
  | .error m => .error ("Error al formatear la fecha: " ++ m)

/-! ### Resolvers (greeting/calculator/datetime resolver classes) -/

/-- The ZodError formatting of the resolvers:
errors mapped to "path: message" and joined with "; ". -/
def formatZodIssues (issues : List ZodIssue) : String :=
  String.intercalate "; " (issues.map fun i => i.1 ++ ": " ++ i.2)

/-- The resolveAndExecute body shared verbatim by the three resolver
classes, parameterised by the tool name, the Zod schema and the injected
use case. A ZodError becomes an InvalidParams McpError listing every issue;
an McpError from below passes through unchanged; any other error is wrapped
into an InternalError McpError naming the tool. -/
def resolveAndExecuteWith {α : Type} (toolName : String)
    (parse : JValue → Except (List ZodIssue) α)
    (exec : α → Except JsError ToolResult) (args : JValue) : Except McpError ToolResult :=
  match parse args with
  | .error issues =>
    .error ⟨.InvalidParams,
      "Errores de validación en herramienta \x27" ++ toolName ++ "\x27: " ++ formatZodIssues issues⟩
  | .ok v =>
    match exec v with
    | .ok r => .ok r
    | .error (.mcp e) => .error e
    | .error (.plain m) =>
      .error ⟨.InternalError, "Error interno en herramienta \x27" ++ toolName ++ "\x27: " ++ m⟩

/-- CalculatorResolver.resolveAndExecute with the use case injectable. -/
def calcResolveWith (exec : CalculatorInput → Except JsError ToolResult)
    (args : JValue) : Except McpError ToolResult :=
  resolveAndExecuteWith "calcular" calcParse exec args

/-- CalculatorResolver.resolveAndExecute with the real use case. -/
def calculatorResolve (args : JValue) : Except McpError ToolResult :=
  calcResolveWith (fun inp => (calcExecute inp).mapError .plain) args

/-- GreetingResolver.resolveAndExecute (hour passed through to the use case). -/
def greetingResolve (hour : ℕ) (args : JValue) : Except McpError ToolResult :=
  resolveAndExecuteWith "saludo" greetingParse (fun inp => .ok (greetingExecute hour inp)) args

/-- DateTimeResolver.resolveAndExecute. -/
def dateTimeResolve (env : DateEnv) (args : JValue) : Except McpError ToolResult :=
  resolveAndExecuteWith "fecha_actual" dtParse (fun inp => (dtExecute env inp).mapError .plain) args

/-- ToolResolver.resolveAndExecute, parameterised by the three registered
resolvers: known names dispatch to their resolver, anything else is a
MethodNotFound McpError enumerating the registered names. The surrounding
catch re-raises McpError unchanged, which is the identity here since the
resolvers already return McpError failures. -/
def toolResolveWith (saludoR calcR fechaR : JValue → Except McpError ToolResult)
    (toolName : String) (args : JValue) : Except McpError ToolResult :=
  if toolName = "saludo" then saludoR args
  else if toolName = "calcular" then calcR args
  else if toolName = "fecha_actual" then fechaR args
  else .error ⟨.MethodNotFound,
    "Herramienta desconocida: " ++ toolName ++ ". Herramientas disponibles: saludo, calcular, fecha_actual"⟩

/-- ToolResolver.resolveAndExecute with the concrete resolvers. -/
def toolResolve (hour : ℕ) (env : DateEnv) (toolName : String) (args : JValue) :
    Except McpError ToolResult :=
  toolResolveWith (greetingResolve hour) calculatorResolve (dateTimeResolve env) toolName args

/-! ### Advertised tool definitions (the inputSchema metadata the claims
consult: name, required list, additionalProperties). -/

structure InputSchemaInfo where
  required : List String
  additionalProperties : Bool
deriving DecidableEq

structure ToolDefinition where
  name : String
  inputSchema : InputSchemaInfo
deriving DecidableEq

def GREETING_TOOL_DEFINITION : ToolDefinition := ⟨"saludo", ⟨["nombre"], false⟩⟩

def CALCULATOR_TOOL_DEFINITION : ToolDefinition := ⟨"calcular", ⟨["operacion", "a", "b"], false⟩⟩

def DATETIME_TOOL_DEFINITION : ToolDefinition := ⟨"fecha_actual", ⟨[], false⟩⟩

def getToolDefinitions : List ToolDefinition :=
  [GREETING_TOOL_DEFINITION, CALCULATOR_TOOL_DEFINITION, DATETIME_TOOL_DEFINITION]

/-! ### Claim-side auxiliary definitions -/

/-- Substring containment: s contains sub as a contiguous substring. -/
def strContains (s sub : String) : Prop := ∃ p q : String, s = p ++ (sub ++ q)

/-- The raw operacion field satisfies its own constraint (a string that is
a member of the operation enum), independently of the other fields. -/
def opOK : JValue → Bool
  | .str s => s == "suma" || s == "resta" || s == "multiplicacion" || s == "division"
  | _ => false

/-- The raw value is a well-typed finite number, independently of the other
fields. -/
def finOK : JValue → Bool
  | .num (.fin _) => true
  | _ => false

/-- The salutation band the claim describes. -/
inductive Band where
  | morning
  | afternoon
  | evening
deriving DecidableEq

def bandOf (h : ℕ) : Band :=
  if h < 12 then .morning else if h < 18 then .afternoon else .evening

def bandSaludo : Band → Bool → String
  | .morning, true => "Buenos días"
  | .morning, false => "¡Buenos días"
  | .afternoon, true => "Buenas tardes"
  | .afternoon, false => "¡Buenas tardes"
  | .evening, true => "Buenas noches"
  | .evening, false => "¡Buenas noches"

/-- The two phrasing templates per band, selected by the formal flag. -/
def bandText (b : Band) (formal : Bool) (n : String) : String :=
  if formal then
    bandSaludo b true ++ ", " ++ n ++ ". Es un placer saludarle. Espero que tenga un excelente día."
  else
    bandSaludo b false ++ " " ++ n ++ "! ¿Cómo estás? ¡Espero que tengas un día genial!"

/-- A concrete formatting environment: the timezone database rejects every
identifier, with the RangeError text V8 produces. Used to exhibit concrete
datetime behaviour. -/
def dtEnv0 : DateEnv :=
  ⟨"2025-01-01T00:00:00.000Z", fun _ => false, fun _ => "", fun _ => "", fun _ => "",
    fun _ => "", fun tz => "Invalid time zone specified: " ++ tz⟩

/-! ## Theorems -/

/-! ### Bridge lemmas for the computable rational wrappers -/

theorem qAdd_eq (a b : ℚ) : qAdd a b = a + b := (Rat.add_def' a b).symm

theorem qSub_eq (a b : ℚ) : qSub a b = a - b := (Rat.sub_def' a b).symm

theorem qMul_eq (a b : ℚ) : qMul a b = a * b := by
  rw [qMul, Rat.mul_def, Rat.normalize_eq_mkRat]

theorem qDiv_eq (a b : ℚ) : qDiv a b = a / b := (Rat.div_def' a b).symm

theorem qHalfUp_eq (k : ℕ) (q : ℚ) : qHalfUp k q = q * 10 ^ k + 1 / 2 := by
  have hq : ((q.den : ℚ)) ≠ 0 := Nat.cast_ne_zero.mpr q.den_nz
  rw [qHalfUp, Rat.mkRat_eq_div]
  conv_rhs => rw [← Rat.num_div_den q]
  push_cast
  field_simp
  ring

/-! ### String helper lemmas -/

theorem strContains_append_left (s t sub : String) (h : strContains t sub) :
    strContains (s ++ t) sub := by
  obtain ⟨p, q, hp⟩ := h
  exact ⟨s ++ p, q, by rw [hp, String.append_assoc]⟩

theorem head_append_of_ne_nil (s t : String) (h : s.data ≠ []) :
    (s ++ t).data.head? = s.data.head? := by
  rw [String.data_append]
  cases hs : s.data with
  | nil => exact absurd hs h
  | cons c cs => rfl

theorem str_ne_of_head_ne (a b : String) (h : a.data.head? ≠ b.data.head?) : a ≠ b :=
  fun he => h (by rw [he])

/-! ### Claims -/

/-- C1: invoking calculate with operacion = "division", any finite a, and
b = 0 yields an InvalidParams (InvalidArguments) failure carrying exactly
the cross-field divide-by-zero message — not an InternalError — and the
result does not depend on the injected CalculatorUseCase, so the handler
is never consulted. -/
theorem claim_C1_division_by_zero_rejected_before_handler :
    ∀ (qa : ℚ) (exec : CalculatorInput → Except JsError ToolResult),
      calcResolveWith exec
        (JValue.obj [("operacion", JValue.str "division"),
                     ("a", JValue.num (JSNum.fin qa)),
                     ("b", JValue.num (JSNum.fin 0))]) =
      .error ⟨ErrorCode.InvalidParams,
        "Errores de validación en herramienta \x27calcular\x27: b: No se puede dividir por cero"⟩ := by
  intro qa exec
  rfl

/-- C5 counterexample: the claim says a direct call of the calculator
handler with operacion = division and b = 0 raises an execution error from
a guard of its own. It does not: CalculatorUseCase.execute has no zero
check (the only guard is the Zod refine in the validation layer), so the
direct call returns an ordinary Result whose text carries the IEEE
quotient Infinity. -/
theorem claim_C5_counterexample :
    calcExecute ⟨Operacion.division, 5, 0⟩ =
      .ok ⟨[textContent "División: 5 ÷ 0 = Infinity"]⟩ := by
  decide

/-- C5 amended: called directly with operacion = division and b = 0 (the
validation layer bypassed), the handler does not raise and does not crash:
it always returns a Result, and the computed value is the IEEE quotient
Infinity, -Infinity or NaN according to the sign of a. The zero-divisor
guard exists only in the validation layer. -/
theorem claim_C5_direct_division_by_zero_returns_result :
    ∀ (a : ℚ),
      (∃ r : ToolResult, calcExecute ⟨Operacion.division, a, 0⟩ = .ok r) ∧
      formatResultado (jsDiv a 0) ∈ ["Infinity", "-Infinity", "NaN"] := by
  intro a
  refine ⟨⟨_, rfl⟩, ?_⟩
  by_cases h1 : (0 : ℚ) < a
  · have hd : jsDiv a 0 = JSNum.inf := by simp [jsDiv, h1]
    rw [hd]
    decide
  · by_cases h2 : a < 0
    · have hd : jsDiv a 0 = JSNum.negInf := by simp [jsDiv, h1, h2]
      rw [hd]
      decide
    · have hd : jsDiv a 0 = JSNum.nan := by simp [jsDiv, h1, h2]
      rw [hd]
      decide

/-- C6: greeting validation applies the declared default and the lenient
boolean coercion. For any name within the length bounds: an absent formal
validates to false; a string formal is coerced by case-insensitive
comparison with the literal "true"; a native boolean passes through. -/
theorem claim_C6_greeting_default_and_coercion :
    ∀ (n : String), 1 ≤ n.length → n.length ≤ 100 →
      greetingParse (JValue.obj [("nombre", JValue.str n)]) = .ok ⟨n, false⟩ ∧
      (∀ s : String,
        greetingParse (JValue.obj [("nombre", JValue.str n), ("formal", JValue.str s)]) =
          .ok ⟨n, strToLower s == "true"⟩) ∧
      (∀ b : Bool,
        greetingParse (JValue.obj [("nombre", JValue.str n), ("formal", JValue.bool b)]) =
          .ok ⟨n, b⟩) := by
  intro n h1 h100
  have hlt : ¬ n.length < 1 := by omega
  have hgt : ¬ n.length > 100 := by omega
  refine ⟨?_, fun s => ?_, fun b => ?_⟩ <;>
    simp [greetingParse, jlookup, parseNombre, parseFormal, coerceFormal, hlt, hgt]

/-- C6 witness: with the concrete inputs of the spec, validating
(nombre = Ana) yields formal = false, (nombre = Ana, formal = "TRUE")
yields formal = true, and (nombre = Ana, formal = "false") yields
formal = false. -/
theorem claim_C6_witness :
    greetingParse (JValue.obj [("nombre", JValue.str "Ana")]) = .ok ⟨"Ana", false⟩ ∧
    greetingParse (JValue.obj [("nombre", JValue.str "Ana"), ("formal", JValue.str "TRUE")]) =
      .ok ⟨"Ana", true⟩ ∧
    greetingParse (JValue.obj [("nombre", JValue.str "Ana"), ("formal", JValue.str "false")]) =
      .ok ⟨"Ana", false⟩ := by
  have H := claim_C6_greeting_default_and_coercion "Ana" (by decide) (by decide)
  exact ⟨H.1, (H.2.1 "TRUE").trans (by decide), (H.2.1 "false").trans (by decide)⟩

theorem str_append_data_ne_nil (s t : String) (h : s.data ≠ []) : (s ++ t).data ≠ [] := by
  rw [String.data_append]
  exact List.append_ne_nil_of_left_ne_nil h t.data

theorem str_head_append3 (s1 s2 s3 s4 : String) (h : s1.data ≠ []) :
    (s1 ++ s2 ++ s3 ++ s4).data.head? = s1.data.head? := by
  rw [head_append_of_ne_nil _ _ (str_append_data_ne_nil _ _ (str_append_data_ne_nil _ _ h)),
      head_append_of_ne_nil _ _ (str_append_data_ne_nil _ _ h),
      head_append_of_ne_nil _ _ h]

theorem bandText_formal_ne_informal (b : Band) (n : String) :
    bandText b true n ≠ bandText b false n := by
  cases b <;>
    · apply str_ne_of_head_ne
      simp only [bandText, if_true, if_false, Bool.false_eq_true, bandSaludo]
      rw [str_head_append3 _ _ _ _ (by decide), str_head_append3 _ _ _ _ (by decide)]
      decide

/-- C4: dispatching any name outside the registry (saludo, calcular,
fecha_actual) yields a MethodNotFound (UnknownOperation) failure whose
message contains every registered operation name, and the result does not
depend on the three registered resolvers, so no adapter or handler runs. -/
theorem claim_C4_unknown_operation :
    ∀ (toolName : String),
      toolName ≠ "saludo" → toolName ≠ "calcular" → toolName ≠ "fecha_actual" →
      ∀ (f g h : JValue → Except McpError ToolResult) (args : JValue),
        toolResolveWith f g h toolName args =
          .error ⟨ErrorCode.MethodNotFound,
            "Herramienta desconocida: " ++ toolName
              ++ ". Herramientas disponibles: saludo, calcular, fecha_actual"⟩ ∧
        strContains ("Herramienta desconocida: " ++ toolName
          ++ ". Herramientas disponibles: saludo, calcular, fecha_actual") "saludo" ∧
        strContains ("Herramienta desconocida: " ++ toolName
          ++ ". Herramientas disponibles: saludo, calcular, fecha_actual") "calcular" ∧
        strContains ("Herramienta desconocida: " ++ toolName
          ++ ". Herramientas disponibles: saludo, calcular, fecha_actual") "fecha_actual" := by
  intro tn h1 h2 h3 f g h args
  refine ⟨by simp [toolResolveWith, h1, h2, h3], ?_, ?_, ?_⟩
  · exact strContains_append_left _ _ _
      ⟨". Herramientas disponibles: ", ", calcular, fecha_actual", by decide⟩
  · exact strContains_append_left _ _ _
      ⟨". Herramientas disponibles: saludo, ", ", fecha_actual", by decide⟩
  · exact strContains_append_left _ _ _
      ⟨". Herramientas disponibles: saludo, calcular, ", "", by decide⟩

/-- C4 witness: dispatching the name does-not-exist with stub resolvers
yields the MethodNotFound failure with the full enumerating message. -/
theorem claim_C4_witness :
    toolResolveWith (fun _ => .ok ⟨[]⟩) (fun _ => .ok ⟨[]⟩) (fun _ => .ok ⟨[]⟩)
      "does-not-exist" JValue.null =
      .error ⟨ErrorCode.MethodNotFound,
        "Herramienta desconocida: does-not-exist. Herramientas disponibles: saludo, calcular, fecha_actual"⟩ :=
  (claim_C4_unknown_operation "does-not-exist" (by decide) (by decide) (by decide)
    (fun _ => .ok ⟨[]⟩) (fun _ => .ok ⟨[]⟩) (fun _ => .ok ⟨[]⟩) JValue.null).1.trans (by decide)

/-- C8: for every wall-clock hour below 24 the greeting handler picks the
salutation band by hour < 12 (morning), 12 ≤ hour < 18 (afternoon),
18 ≤ hour (evening), and within the selected band the formal flag selects
between exactly two distinct phrasing templates. -/
theorem claim_C8_salutation_bands :
    ∀ (h : ℕ), h < 24 → ∀ (n : String) (f : Bool),
      greetingExecute h ⟨n, f⟩ = ⟨[textContent (bandText (bandOf h) f n)]⟩ ∧
      (bandOf h = Band.morning ↔ h < 12) ∧
      (bandOf h = Band.afternoon ↔ 12 ≤ h ∧ h < 18) ∧
      (bandOf h = Band.evening ↔ 18 ≤ h) ∧
      bandText (bandOf h) true n ≠ bandText (bandOf h) false n := by
  intro h _ n f
  refine ⟨?_, ?_, ?_, ?_, bandText_formal_ne_informal _ n⟩
  · by_cases h12 : h < 12
    · cases f <;> simp [greetingExecute, bandText, bandSaludo, bandOf, h12]
    · by_cases h18 : h < 18
      · cases f <;> simp [greetingExecute, bandText, bandSaludo, bandOf, h12, h18]
      · cases f <;> simp [greetingExecute, bandText, bandSaludo, bandOf, h12, h18]
  · by_cases h12 : h < 12
    · simp [bandOf, h12]
    · by_cases h18 : h < 18 <;> simp [bandOf, h12, h18]
  · by_cases h12 : h < 12
    · simp only [bandOf, if_pos h12]
      constructor
      · intro he
        cases he
      · intro hc
        omega
    · by_cases h18 : h < 18
      · simp only [bandOf, if_neg h12, if_pos h18]
        constructor
        · intro _
          omega
        · intro _
          trivial
      · simp only [bandOf, if_neg h12, if_neg h18]
        constructor
        · intro he
          cases he
        · intro hc
          omega
  · by_cases h12 : h < 12
    · simp only [bandOf, if_pos h12]
      constructor
      · intro he
        cases he
      · intro hc
        omega
    · by_cases h18 : h < 18
      · simp only [bandOf, if_neg h12, if_pos h18]
        constructor
        · intro he
          cases he
        · intro hc
          omega
      · simp only [bandOf, if_neg h12, if_neg h18]
        constructor
        · intro _
          omega
        · intro _
          trivial

/-- C8 witness: at hour 9 the formal and informal greetings for Ana are the
two morning templates. -/
theorem claim_C8_witness :
    greetingExecute 9 ⟨"Ana", true⟩ =
      ⟨[textContent "Buenos días, Ana. Es un placer saludarle. Espero que tenga un excelente día."]⟩ ∧
    greetingExecute 20 ⟨"Ana", false⟩ =
      ⟨[textContent "¡Buenas noches Ana! ¿Cómo estás? ¡Espero que tengas un día genial!"]⟩ :=
  ⟨((claim_C8_salutation_bands 9 (by decide) "Ana" true).1).trans (by decide),
   ((claim_C8_salutation_bands 20 (by decide) "Ana" false).1).trans (by decide)⟩

theorem parseOperacion_error_of_not_opOK (v : JValue) (h : opOK v = false) :
    parseOperacion (some v) = .error ("operacion", opEnumMsg) := by
  cases v with
  | str s =>
    simp only [opOK, Bool.or_eq_false_iff, beq_eq_false_iff_ne, ne_eq] at h
    simp [parseOperacion, h.1.1.1, h.1.1.2, h.1.2, h.2]
  | num n => rfl
  | bool b => rfl
  | null => rfl
  | obj fs => rfl

theorem parseOperacion_ok_opOK (v : JValue) (o : Operacion)
    (h : parseOperacion (some v) = .ok o) : opOK v = true := by
  cases v with
  | str s =>
    by_cases h1 : s = "suma"
    · simp [opOK, h1]
    · by_cases h2 : s = "resta"
      · simp [opOK, h2]
      · by_cases h3 : s = "multiplicacion"
        · simp [opOK, h3]
        · by_cases h4 : s = "division"
          · simp [opOK, h4]
          · simp [parseOperacion, h1, h2, h3, h4] at h
  | num n => simp [parseOperacion] at h
  | bool b => simp [parseOperacion] at h
  | null => simp [parseOperacion] at h
  | obj fs => simp [parseOperacion] at h

theorem parseOperacion_error_eq (v : JValue) (i : ZodIssue)
    (h : parseOperacion (some v) = .error i) : i = ("operacion", opEnumMsg) := by
  cases v with
  | str s =>
    by_cases h1 : s = "suma"
    · simp [parseOperacion, h1] at h
    · by_cases h2 : s = "resta"
      · simp [parseOperacion, h1, h2] at h
      · by_cases h3 : s = "multiplicacion"
        · simp [parseOperacion, h1, h2, h3] at h
        · by_cases h4 : s = "division"
          · simp [parseOperacion, h1, h2, h3, h4] at h
          · simp [parseOperacion, h1, h2, h3, h4] at h
            exact h.symm
  | num n => simp [parseOperacion] at h; exact h.symm
  | bool b => simp [parseOperacion] at h; exact h.symm
  | null => simp [parseOperacion] at h; exact h.symm
  | obj fs => simp [parseOperacion] at h; exact h.symm

theorem parseFiniteNum_error_of_not_finOK (f m : String) (v : JValue) (h : finOK v = false) :
    ∃ msg, parseFiniteNum f m (some v) = .error (f, msg) := by
  cases v with
  | str s => exact ⟨_, rfl⟩
  | num n =>
    cases n with
    | fin q => simp [finOK] at h
    | inf => exact ⟨m, rfl⟩
    | negInf => exact ⟨m, rfl⟩
    | nan => exact ⟨_, rfl⟩
  | bool b => exact ⟨_, rfl⟩
  | null => exact ⟨_, rfl⟩
  | obj fs => exact ⟨_, rfl⟩

theorem parseFiniteNum_ok_finOK (f m : String) (v : JValue) (q : ℚ)
    (h : parseFiniteNum f m (some v) = .ok q) : finOK v = true := by
  cases v with
  | str s => simp [parseFiniteNum] at h
  | num n =>
    cases n with
    | fin q' => rfl
    | inf => simp [parseFiniteNum] at h
    | negInf => simp [parseFiniteNum] at h
    | nan => simp [parseFiniteNum] at h
  | bool b => simp [parseFiniteNum] at h
  | null => simp [parseFiniteNum] at h
  | obj fs => simp [parseFiniteNum] at h

theorem parseFiniteNum_error_fst (f m : String) (v : JValue) (i : ZodIssue)
    (h : parseFiniteNum f m (some v) = .error i) : i.1 = f := by
  cases v with
  | str s => simp [parseFiniteNum] at h; rw [← h]
  | num n =>
    cases n with
    | fin q => simp [parseFiniteNum] at h
    | inf => simp [parseFiniteNum] at h; rw [← h]
    | negInf => simp [parseFiniteNum] at h; rw [← h]
    | nan => simp [parseFiniteNum] at h; rw [← h]
  | bool b => simp [parseFiniteNum] at h; rw [← h]
  | null => simp [parseFiniteNum] at h; rw [← h]
  | obj fs => simp [parseFiniteNum] at h; rw [← h]

theorem parseFiniteNum_b_error_ne_div (v : JValue) (i : ZodIssue)
    (h : parseFiniteNum "b" finiteMsgB (some v) = .error i) : i ≠ ("b", divZeroMsg) := by
  intro hc
  subst hc
  cases v with
  | str s => simp [parseFiniteNum, jsTypeName] at h; exact absurd h (by decide)
  | num n =>
    cases n with
    | fin q => simp [parseFiniteNum] at h
    | inf => simp [parseFiniteNum] at h; exact absurd h (by decide)
    | negInf => simp [parseFiniteNum] at h; exact absurd h (by decide)
    | nan => simp [parseFiniteNum] at h; exact absurd h (by decide)
  | bool b => simp [parseFiniteNum, jsTypeName] at h; exact absurd h (by decide)
  | null => simp [parseFiniteNum, jsTypeName] at h; exact absurd h (by decide)
  | obj fs => simp [parseFiniteNum, jsTypeName] at h; exact absurd h (by decide)

theorem calcIssues_op_complete (vop va vb : JValue) (hf : opOK vop = false) :
    ("operacion", opEnumMsg) ∈
      calcIssues (JValue.obj [("operacion", vop), ("a", va), ("b", vb)]) := by
  have ho := parseOperacion_error_of_not_opOK vop hf
  rcases ha : parseFiniteNum "a" finiteMsgA (some va) with ia | qa <;>
    rcases hb : parseFiniteNum "b" finiteMsgB (some vb) with ib | qb <;>
      simp [calcIssues, calcParse, jlookup, ho, ha, hb, errList]

theorem calcIssues_a_complete (vop va vb : JValue) (hf : finOK va = false) :
    ∃ m, ("a", m) ∈ calcIssues (JValue.obj [("operacion", vop), ("a", va), ("b", vb)]) := by
  obtain ⟨m, ha⟩ := parseFiniteNum_error_of_not_finOK "a" finiteMsgA va hf
  refine ⟨m, ?_⟩
  rcases ho : parseOperacion (some vop) with io | o <;>
    rcases hb : parseFiniteNum "b" finiteMsgB (some vb) with ib | qb <;>
      simp [calcIssues, calcParse, jlookup, ho, ha, hb, errList]

theorem calcIssues_b_complete (vop va vb : JValue) (hf : finOK vb = false) :
    ∃ m, ("b", m) ∈ calcIssues (JValue.obj [("operacion", vop), ("a", va), ("b", vb)]) := by
  obtain ⟨m, hb⟩ := parseFiniteNum_error_of_not_finOK "b" finiteMsgB vb hf
  refine ⟨m, ?_⟩
  rcases ho : parseOperacion (some vop) with io | o <;>
    rcases ha : parseFiniteNum "a" finiteMsgA (some va) with ia | qa <;>
      simp [calcIssues, calcParse, jlookup, ho, ha, hb, errList]


theorem calcIssues_div_necessity (vop va vb : JValue)
    (h : ("b", divZeroMsg) ∈
      calcIssues (JValue.obj [("operacion", vop), ("a", va), ("b", vb)])) :
    opOK vop = true ∧ finOK vb = true := by
  rcases ho : parseOperacion (some vop) with io | o
  · have hio := parseOperacion_error_eq vop io ho
    subst hio
    rcases ha : parseFiniteNum "a" finiteMsgA (some va) with ia | qa <;>
      rcases hb : parseFiniteNum "b" finiteMsgB (some vb) with ib | qb <;>
        simp [calcIssues, calcParse, jlookup, ho, ha, hb, errList] at h
    · rcases h with h | h
      · have hfst := parseFiniteNum_error_fst "a" finiteMsgA va ia ha
        rw [← h] at hfst
        exact absurd hfst (by decide)
      · exact absurd h.symm (parseFiniteNum_b_error_ne_div vb ib hb)
    · have hfst := parseFiniteNum_error_fst "a" finiteMsgA va ia ha
      rw [← h] at hfst
      exact absurd hfst (by decide)
    · exact absurd h.symm (parseFiniteNum_b_error_ne_div vb ib hb)
  · rcases ha : parseFiniteNum "a" finiteMsgA (some va) with ia | qa
    · rcases hb : parseFiniteNum "b" finiteMsgB (some vb) with ib | qb <;>
        simp [calcIssues, calcParse, jlookup, ho, ha, hb, errList] at h
      · rcases h with h | h
        · have hfst := parseFiniteNum_error_fst "a" finiteMsgA va ia ha
          rw [← h] at hfst
          exact absurd hfst (by decide)
        · exact absurd h.symm (parseFiniteNum_b_error_ne_div vb ib hb)
      · have hfst := parseFiniteNum_error_fst "a" finiteMsgA va ia ha
        rw [← h] at hfst
        exact absurd hfst (by decide)
    · rcases hb : parseFiniteNum "b" finiteMsgB (some vb) with ib | qb
      · simp [calcIssues, calcParse, jlookup, ho, ha, hb, errList] at h
        exact absurd h.symm (parseFiniteNum_b_error_ne_div vb ib hb)
      · exact ⟨parseOperacion_ok_opOK _ _ ho, parseFiniteNum_ok_finOK _ _ _ _ hb⟩

/-- C2: calculator validation is fail-slow and aggregating. For any raw
field values: every field violating its own constraint contributes an
issue at its field path to the collected issue list (violations are not
masked by one another); the divide-by-zero cross-field issue can only be
present when the underlying fields operacion and b are themselves
well-typed; and on any validation failure the resolver message enumerates
the whole issue list as fieldPath: message pairs joined by semicolons. -/
theorem claim_C2_fail_slow_aggregation :
    ∀ (vop va vb : JValue),
      (opOK vop = false → ("operacion", opEnumMsg) ∈
        calcIssues (JValue.obj [("operacion", vop), ("a", va), ("b", vb)])) ∧
      (finOK va = false → ∃ m, ("a", m) ∈
        calcIssues (JValue.obj [("operacion", vop), ("a", va), ("b", vb)])) ∧
      (finOK vb = false → ∃ m, ("b", m) ∈
        calcIssues (JValue.obj [("operacion", vop), ("a", va), ("b", vb)])) ∧
      (("b", divZeroMsg) ∈
          calcIssues (JValue.obj [("operacion", vop), ("a", va), ("b", vb)]) →
        opOK vop = true ∧ finOK vb = true) ∧
      (∀ (exec : CalculatorInput → Except JsError ToolResult) (l : List ZodIssue),
        calcParse (JValue.obj [("operacion", vop), ("a", va), ("b", vb)]) = .error l →
        calcResolveWith exec (JValue.obj [("operacion", vop), ("a", va), ("b", vb)]) =
          .error ⟨ErrorCode.InvalidParams,
            "Errores de validación en herramienta \x27calcular\x27: " ++ formatZodIssues l⟩) := by
  intro vop va vb
  refine ⟨calcIssues_op_complete vop va vb, calcIssues_a_complete vop va vb,
    calcIssues_b_complete vop va vb, calcIssues_div_necessity vop va vb, ?_⟩
  intro exec l hl
  simp only [calcResolveWith, resolveAndExecuteWith, hl]
  have hlit : ("Errores de validación en herramienta \x27" ++ "calcular") ++ "\x27: " =
      "Errores de validación en herramienta \x27calcular\x27: " := by decide
  rw [hlit]

set_option maxRecDepth 8192 in
/-- C2 witness: a raw input violating all three field constraints at once
(operacion not in the enum, a boolean, b null) is reported with one issue
per field, and the resolver aggregates all of them into one message. -/
theorem claim_C2_witness :
    ("operacion", opEnumMsg) ∈
      calcIssues (JValue.obj [("operacion", JValue.str "potencia"),
        ("a", JValue.bool true), ("b", JValue.null)]) ∧
    (∃ m, ("a", m) ∈
      calcIssues (JValue.obj [("operacion", JValue.str "potencia"),
        ("a", JValue.bool true), ("b", JValue.null)])) ∧
    (∃ m, ("b", m) ∈
      calcIssues (JValue.obj [("operacion", JValue.str "potencia"),
        ("a", JValue.bool true), ("b", JValue.null)])) ∧
    calcResolveWith (fun _ => .ok ⟨[]⟩)
      (JValue.obj [("operacion", JValue.str "potencia"),
        ("a", JValue.bool true), ("b", JValue.null)]) =
      .error ⟨ErrorCode.InvalidParams,
        "Errores de validación en herramienta \x27calcular\x27: operacion: La operación debe ser una de: suma, resta, multiplicacion, division; a: Expected number, received boolean; b: Expected number, received null"⟩ := by
  have H := claim_C2_fail_slow_aggregation (JValue.str "potencia") (JValue.bool true) JValue.null
  refine ⟨H.1 (by decide), H.2.1 (by decide), H.2.2.1 (by decide), ?_⟩
  exact (H.2.2.2.2 (fun _ => .ok ⟨[]⟩)
    [("operacion", opEnumMsg), ("a", "Expected number, received boolean"),
     ("b", "Expected number, received null")] (by decide)).trans (by decide)

theorem strContains_append_right (s t sub : String) (h : strContains s sub) :
    strContains (s ++ t) sub := by
  obtain ⟨p, q, hp⟩ := h
  refine ⟨p, q ++ t, ?_⟩
  rw [hp, String.append_assoc, String.append_assoc]

/-- C3: the adapter error-wrapping rule. After a successful parse, an error
that is already a typed McpError passes through the resolver unchanged,
and any other error is wrapped into an InternalError McpError whose
message names the operation and appends the original message. In
particular the datetime operation with format corto and any timezone the
timezone database rejects yields the InternalError whose message carries
the formatting-failure text (Error al formatear la fecha) and the
RangeError text, not a crash. -/
theorem claim_C3_error_wrapping :
    (∀ (α : Type) (toolName : String) (parse : JValue → Except (List ZodIssue) α)
        (exec : α → Except JsError ToolResult) (args : JValue) (v : α),
      parse args = .ok v →
        (∀ e : McpError, exec v = .error (.mcp e) →
          resolveAndExecuteWith toolName parse exec args = .error e) ∧
        (∀ m : String, exec v = .error (.plain m) →
          resolveAndExecuteWith toolName parse exec args =
            .error ⟨ErrorCode.InternalError,
              "Error interno en herramienta \x27" ++ toolName ++ "\x27: " ++ m⟩)) ∧
    (∀ (env : DateEnv) (tz : String), env.validTZ tz = false →
      dateTimeResolve env
        (JValue.obj [("formato", JValue.str "corto"), ("zona_horaria", JValue.str tz)]) =
        .error ⟨ErrorCode.InternalError,
          "Error interno en herramienta \x27fecha_actual\x27: Error al formatear la fecha: "
            ++ env.tzErrMsg tz⟩ ∧
      strContains
        ("Error interno en herramienta \x27fecha_actual\x27: Error al formatear la fecha: "
          ++ env.tzErrMsg tz) "formatear") := by
  constructor
  · intro α toolName parse exec args v hp
    constructor
    · intro e he
      simp [resolveAndExecuteWith, hp, he]
    · intro m hm
      simp [resolveAndExecuteWith, hp, hm]
  · intro env tz hv
    constructor
    · have hparse : dtParse (JValue.obj [("formato", JValue.str "corto"),
          ("zona_horaria", JValue.str tz)]) = .ok ⟨Formato.corto, tz⟩ := rfl
      have hexec : dtExecute env ⟨Formato.corto, tz⟩ =
          .error ("Error al formatear la fecha: " ++ env.tzErrMsg tz) := by
        simp [dtExecute, dtFormat, hv]
      simp only [dateTimeResolve, resolveAndExecuteWith, hparse, hexec, Except.mapError]
      rw [← String.append_assoc]
      have hlit : ("Error interno en herramienta \x27" ++ "fecha_actual" ++ "\x27: ")
          ++ "Error al formatear la fecha: " =
          "Error interno en herramienta \x27fecha_actual\x27: Error al formatear la fecha: " := by
        decide
      rw [hlit]
    · exact strContains_append_right _ _ _
        ⟨"Error interno en herramienta \x27fecha_actual\x27: Error al ", " la fecha: ", by decide⟩

/-- C3 witness: with the calculator schema and a stub use case, an McpError
raised below the resolver passes through unchanged while a plain error is
wrapped; and under the concrete environment dtEnv0 (which rejects every
timezone identifier) the datetime invocation with corto and Not/AZone
yields the fully wrapped InternalError message. -/
theorem claim_C3_witness :
    resolveAndExecuteWith "calcular" calcParse
      (fun _ => .error (.mcp ⟨ErrorCode.InternalError, "boom"⟩))
      (JValue.obj [("operacion", JValue.str "suma"),
        ("a", JValue.num (JSNum.fin 1)), ("b", JValue.num (JSNum.fin 2))]) =
      .error ⟨ErrorCode.InternalError, "boom"⟩ ∧
    resolveAndExecuteWith "calcular" calcParse
      (fun _ => .error (.plain "boom"))
      (JValue.obj [("operacion", JValue.str "suma"),
        ("a", JValue.num (JSNum.fin 1)), ("b", JValue.num (JSNum.fin 2))]) =
      .error ⟨ErrorCode.InternalError, "Error interno en herramienta \x27calcular\x27: boom"⟩ ∧
    dateTimeResolve dtEnv0
      (JValue.obj [("formato", JValue.str "corto"), ("zona_horaria", JValue.str "Not/AZone")]) =
      .error ⟨ErrorCode.InternalError,
        "Error interno en herramienta \x27fecha_actual\x27: Error al formatear la fecha: Invalid time zone specified: Not/AZone"⟩ := by
  refine ⟨?_, ?_, ?_⟩
  · exact ((claim_C3_error_wrapping.1 CalculatorInput "calcular" calcParse
      (fun _ => .error (.mcp ⟨ErrorCode.InternalError, "boom"⟩))
      (JValue.obj [("operacion", JValue.str "suma"),
        ("a", JValue.num (JSNum.fin 1)), ("b", JValue.num (JSNum.fin 2))])
      ⟨Operacion.suma, 1, 2⟩ (by decide)).1 ⟨ErrorCode.InternalError, "boom"⟩ rfl)
  · exact ((claim_C3_error_wrapping.1 CalculatorInput "calcular" calcParse
      (fun _ => .error (.plain "boom"))
      (JValue.obj [("operacion", JValue.str "suma"),
        ("a", JValue.num (JSNum.fin 1)), ("b", JValue.num (JSNum.fin 2))])
      ⟨Operacion.suma, 1, 2⟩ (by decide)).2 "boom" rfl).trans (by decide)
  · exact ((claim_C3_error_wrapping.2 dtEnv0 "Not/AZone" rfl).1).trans (by decide)

/-- C7: for every validated calculator input (divide-by-zero excluded by
validation) the computed result is a finite rational and the result text
interpolates it through formatResultado: an integral result prints as a
plain integer with no decimal part, a non-integral result prints as its
toFixed(6) rendering with the trailing zeros stripped. On the concrete
inputs of the spec: 15 + 25 prints 40, 6 × 7 prints 42, and 10 ÷ 3 prints
3.333333. -/
theorem claim_C7_result_formatting :
    (∀ (inp : CalculatorInput), (inp.operacion = Operacion.division → inp.b ≠ 0) →
      ∃ q : ℚ, opValue inp.operacion inp.a inp.b = JSNum.fin q ∧
        calcExecute inp = .ok ⟨[textContent (opDescripcion inp.operacion ++ ": "
          ++ jsNumToString (JSNum.fin inp.a) ++ " " ++ opSimbolo inp.operacion ++ " "
          ++ jsNumToString (JSNum.fin inp.b) ++ " = " ++ formatResultado (JSNum.fin q))]⟩ ∧
        (q.den = 1 → formatResultado (JSNum.fin q) = toString q.num) ∧
        (q.den ≠ 1 → formatResultado (JSNum.fin q) = stripTrailing (ratToFixed 6 q))) ∧
    calcExecute ⟨Operacion.suma, 15, 25⟩ = .ok ⟨[textContent "Suma: 15 + 25 = 40"]⟩ ∧
    calcExecute ⟨Operacion.multiplicacion, 6, 7⟩ =
      .ok ⟨[textContent "Multiplicación: 6 × 7 = 42"]⟩ ∧
    calcExecute ⟨Operacion.division, 10, 3⟩ =
      .ok ⟨[textContent "División: 10 ÷ 3 = 3.333333"]⟩ := by
  refine ⟨?_, by decide, by decide, by decide⟩
  rintro ⟨o, a, b⟩ hdiv
  have hfmt : ∀ q : ℚ,
      (q.den = 1 → formatResultado (JSNum.fin q) = toString q.num) ∧
      (q.den ≠ 1 → formatResultado (JSNum.fin q) = stripTrailing (ratToFixed 6 q)) := by
    intro q
    constructor
    · intro hden
      simp [formatResultado, isIntegerJS, jsNumToString, hden]
    · intro hden
      simp [formatResultado, isIntegerJS, jsToFixed, hden]
  cases o with
  | suma => exact ⟨qAdd a b, rfl, rfl, (hfmt _).1, (hfmt _).2⟩
  | resta => exact ⟨qSub a b, rfl, rfl, (hfmt _).1, (hfmt _).2⟩
  | multiplicacion => exact ⟨qMul a b, rfl, rfl, (hfmt _).1, (hfmt _).2⟩
  | division =>
    have hb : b ≠ 0 := hdiv rfl
    have hj : jsDiv a b = JSNum.fin (qDiv a b) := by simp [jsDiv, hb]
    refine ⟨qDiv a b, hj, ?_, (hfmt _).1, (hfmt _).2⟩
    simp only [calcExecute, opValue, hj]

/-- C7 witness: the formatting law applied at the concrete validated input
10 ÷ 3, whose computed value is the finite rational 10/3. -/
theorem claim_C7_witness :
    ∃ q : ℚ, opValue Operacion.division 10 3 = JSNum.fin q := by
  obtain ⟨q, hq, _⟩ :=
    claim_C7_result_formatting.1 ⟨Operacion.division, 10, 3⟩ (fun _ => by decide)
  exact ⟨q, hq⟩

theorem jlookup_none (k : String) (l : List (String × JValue))
    (h : ∀ kv ∈ l, kv.1 ≠ k) : jlookup k l = none := by
  induction l with
  | nil => rfl
  | cons kv rest ih =>
    obtain ⟨k', v⟩ := kv
    have hk : k' ≠ k := h (k', v) (List.mem_cons_self _ _)
    simp only [jlookup, if_neg hk]
    exact ih fun kv hm => h kv (List.mem_cons_of_mem _ hm)

/-- C9: validation silently strips undeclared keys. Any raw object whose
declared fields are valid parses successfully even when arbitrary extra
keys are present, and the validated output (by its type) carries only the
declared fields — although every advertised tool descriptor declares
additionalProperties = false in its inputSchema. -/
theorem claim_C9_unknown_keys_stripped :
    (∀ (n : String), 1 ≤ n.length → n.length ≤ 100 →
      ∀ extras : List (String × JValue),
        (∀ kv ∈ extras, kv.1 ≠ "nombre" ∧ kv.1 ≠ "formal") →
        greetingParse (JValue.obj (("nombre", JValue.str n) :: extras)) = .ok ⟨n, false⟩) ∧
    (∀ (qa qb : ℚ) (extras : List (String × JValue)),
        (∀ kv ∈ extras, kv.1 ≠ "operacion" ∧ kv.1 ≠ "a" ∧ kv.1 ≠ "b") →
        calcParse (JValue.obj (("operacion", JValue.str "suma")
          :: ("a", JValue.num (JSNum.fin qa))
          :: ("b", JValue.num (JSNum.fin qb)) :: extras)) = .ok ⟨Operacion.suma, qa, qb⟩) ∧
    GREETING_TOOL_DEFINITION.inputSchema.additionalProperties = false ∧
    CALCULATOR_TOOL_DEFINITION.inputSchema.additionalProperties = false ∧
    DATETIME_TOOL_DEFINITION.inputSchema.additionalProperties = false := by
  refine ⟨?_, ?_, rfl, rfl, rfl⟩
  · intro n h1 h100 extras hex
    have hformal : jlookup "formal" extras = none :=
      jlookup_none _ _ fun kv hm => (hex kv hm).2
    have hlt : ¬ n.length < 1 := by omega
    have hgt : ¬ n.length > 100 := by omega
    simp [greetingParse, jlookup, parseNombre, parseFormal, coerceFormal, hformal, hlt, hgt]
  · intro qa qb extras hex
    simp [calcParse, jlookup, parseOperacion, parseFiniteNum]

/-- C9 witness: the greeting schema accepts (nombre = Ana, extra = null)
and strips the extra key; the calculator schema accepts a valid input with
an additional key other; every descriptor declares
additionalProperties = false. -/
theorem claim_C9_witness :
    greetingParse (JValue.obj [("nombre", JValue.str "Ana"), ("extra", JValue.null)]) =
      .ok ⟨"Ana", false⟩ ∧
    calcParse (JValue.obj [("operacion", JValue.str "suma"),
      ("a", JValue.num (JSNum.fin 1)), ("b", JValue.num (JSNum.fin 2)),
      ("other", JValue.bool true)]) = .ok ⟨Operacion.suma, 1, 2⟩ := by
  constructor
  · exact claim_C9_unknown_keys_stripped.1 "Ana" (by decide) (by decide)
      [("extra", JValue.null)] (by simp)
  · exact claim_C9_unknown_keys_stripped.2.1 1 2 [("other", JValue.bool true)] (by simp)

/-- C10 counterexample: the claim says that under formato = iso the
datetime handler ignores zona_horaria entirely. It does not: the result
text appends a zonaInfo note naming the timezone whenever it differs from
Europe/Madrid, so under a fixed environment the iso output changes with
the timezone string. -/
theorem claim_C10_counterexample :
    dtExecute dtEnv0 ⟨Formato.iso, "Not/AZone"⟩ =
      .ok ⟨[textContent
        "La fecha actual es: 2025-01-01T00:00:00.000Z (Zona horaria: Not/AZone)"]⟩ ∧
    dtExecute dtEnv0 ⟨Formato.iso, "Europe/Madrid"⟩ =
      .ok ⟨[textContent "La fecha actual es: 2025-01-01T00:00:00.000Z"]⟩ ∧
    ("La fecha actual es: 2025-01-01T00:00:00.000Z (Zona horaria: Not/AZone)" : String) ≠
      "La fecha actual es: 2025-01-01T00:00:00.000Z" := by
  exact ⟨by decide, by decide, by decide⟩

/-- C10 amended: under formato = iso the datetime handler never consults
the timezone database and never raises — for every environment and every
timezone string, including invalid identifiers, it returns the
toISOString text, with zona_horaria affecting only the informational
zonaInfo suffix; an execution error is possible exactly for the other four
formats (corto, hora, completo, largo) with a rejected timezone. -/
theorem claim_C10_iso_never_consults_timezone :
    ∀ (env : DateEnv) (tz : String),
      dtExecute env ⟨Formato.iso, tz⟩ =
        .ok ⟨[textContent ("La fecha actual es: " ++ env.isoString ++ zonaInfo tz)]⟩ ∧
      (∀ f : Formato,
        (∃ e, dtExecute env ⟨f, tz⟩ = .error e) ↔
          (f ≠ Formato.iso ∧ env.validTZ tz = false)) := by
  intro env tz
  constructor
  · rfl
  · intro f
    cases hf : env.validTZ tz <;> cases f <;> simp [dtExecute, dtFormat, hf]

/-- C10 witness: the amended law evaluated in the concrete environment
dtEnv0 (whose timezone database rejects everything): iso still succeeds
with the suffix naming UTC, while corto errors. -/
theorem claim_C10_witness :
    dtExecute dtEnv0 ⟨Formato.iso, "UTC"⟩ =
      .ok ⟨[textContent "La fecha actual es: 2025-01-01T00:00:00.000Z (Zona horaria: UTC)"]⟩ ∧
    (∃ e, dtExecute dtEnv0 ⟨Formato.corto, "UTC"⟩ = .error e) := by
  constructor
  · exact ((claim_C10_iso_never_consults_timezone dtEnv0 "UTC").1).trans (by decide)
  · exact ((claim_C10_iso_never_consults_timezone dtEnv0 "UTC").2 Formato.corto).mpr
      ⟨by decide, rfl⟩
